import Mathlib

/-
Verification of the process mass-balance solver of this repository.

The solver itself (StreamRegistry, ReactionEngine, SplitResolver,
RecycleConvergenceLoop, BalanceValidator) is not among the provided
frontend sources; its behavior is modelled here from the specification
(sections 3, 4, 6, 7, 8).  The frontend pieces that are present
(API.call in the API module, collectStreamData in the balance module)
are embedded directly from their JavaScript source.

Numeric values are modelled as rationals; the tolerance 1e-6 and the
iteration budget 200 are the spec defaults.
-/

namespace MassBalance

/-- Modelled from the spec: absolute tolerance used for convergence and
closure checks, default 1e-6 (sections 4.4, 4.5, 8). -/
def tol : ℚ := 1 / 1000000

/-- Modelled from the spec: maximum iteration count of the recycle
convergence loop, default 200 (section 4.4). -/
def maxIterations : Nat := 200

/-- Modelled from the spec: a stream of the request (section 3): name,
direction (1 = INPUT, -1 = OUTPUT), optional flow rate, and a map from
component name to an optional fraction (null means unknown). -/
structure Stream where
  name : String
  direction : Int
  flow_rate : Option ℚ
  compositions : List (String × Option ℚ)
deriving DecidableEq

/-- Modelled from the spec: a reaction (section 3): stoichiometry map,
key component and its conversion. -/
structure Reaction where
  stoichiometry : List (String × ℚ)
  key_component : String
  conversion : ℚ
deriving DecidableEq

/-- Modelled from the spec: a split (section 3): parent, recycle and
purge stream names and the recycle fraction. -/
structure Split where
  parent_stream : String
  recycle_stream : String
  purge_stream : String
  fraction : ℚ
deriving DecidableEq

/-- Modelled from the spec: one solve request (section 6). -/
structure Request where
  components : List String
  streams : List Stream
  reactions : List Reaction
  splits : List Split
deriving DecidableEq

/-- Modelled from the spec: the error taxonomy of section 7. -/
inductive SolveError where
  | topology (message : String)
  | underspecified (stream : String)
  | overspecified (message : String)
  | convergence (iterations : Nat) (residual : ℚ)
deriving DecidableEq

/-- Modelled from the spec: one resolved stream of the response
(section 6): a known flow rate and fully known compositions. -/
structure StreamResult where
  flow_rate : ℚ
  compositions : List (String × ℚ)
deriving DecidableEq

/-- Modelled from the spec: a successful solve response (section 6):
per-stream results and the process metrics. -/
structure SolveOk where
  results : List (String × StreamResult)
  metrics : List (String × ℚ)
deriving DecidableEq

/-- Lookup of a stream by name in a stream table (name-indexed table of
section 9). -/
def lookupStream (tbl : List Stream) (n : String) : Option Stream :=
  tbl.find? (fun s => s.name == n)

/-- Value of a composition entry, none when the entry is unknown or the
component is not present. -/
def compLookup (cs : List (String × Option ℚ)) (c : String) : Option ℚ :=
  match cs.find? (fun p => p.1 == c) with
  | some p => p.2
  | none => none

/-- Flow rate with unknown read as the current estimate 0. -/
def flowD (s : Stream) : ℚ := s.flow_rate.getD 0

/-- Composition entry with unknown read as the current estimate 0. -/
def compD (s : Stream) (c : String) : ℚ := (compLookup s.compositions c).getD 0

/-- A stream slot is KNOWN when its flow rate and every composition
entry are known (section 4.1). -/
def streamKnown (s : Stream) : Bool :=
  s.flow_rate.isSome && s.compositions.all (fun p => p.2.isSome)

/-- Sum of the known composition entries of a stream (unknowns as 0). -/
def compSum (s : Stream) : ℚ :=
  s.compositions.foldl (fun a p => a + p.2.getD 0) 0

/-- Sum of flow rates of the streams with the given direction. -/
def sumFlows (tbl : List Stream) (dir : Int) : ℚ :=
  (tbl.filter (fun s => s.direction == dir)).foldl (fun a s => a + flowD s) 0

/-- Modelled from the spec: StreamRegistry validation (section 4.1):
unique stream names, declared composition keys, and existing
reaction/split name references; fails with a TopologyError naming the
offending item. -/
def registryCheck (req : Request) : Option SolveError :=
  if (req.streams.map (fun s => s.name)).Nodup then
    match req.streams.find? (fun s =>
        !s.compositions.all (fun p => req.components.contains p.1)) with
    | some s => some (.topology ("unknown component in stream " ++ s.name))
    | none =>
      match req.splits.find? (fun sp =>
          (lookupStream req.streams sp.parent_stream).isNone
          || (lookupStream req.streams sp.recycle_stream).isNone
          || (lookupStream req.streams sp.purge_stream).isNone) with
      | some sp => some (.topology ("split references missing stream " ++ sp.parent_stream))
      | none =>
        match req.reactions.find? (fun r => !req.components.contains r.key_component) with
        | some r => some (.topology ("unknown key component " ++ r.key_component))
        | none => none
  else some (.topology "duplicate stream names")

/-- Amount of a component in an amounts vector keyed by component name. -/
def amountOf (amounts : List (String × ℚ)) (c : String) : ℚ :=
  match amounts.find? (fun p => p.1 == c) with
  | some p => p.2
  | none => 0

/-- Modelled from the spec: the aggregate quantity of a component
available at the reactive node: sum over INPUT streams of
flow_rate x composition (section 4.2), with unknowns read as 0
estimates. -/
def inputAmount (tbl : List Stream) (c : String) : ℚ :=
  (tbl.filter (fun s => s.direction == (1 : Int))).foldl
    (fun a s => a + flowD s * compD s c) 0

/-- Modelled from the spec: the extent of one reaction is
conversion x available key component amount (section 4.2). -/
def reactionExtent (amounts : List (String × ℚ)) (r : Reaction) : ℚ :=
  r.conversion * amountOf amounts r.key_component

/-- Modelled from the spec: ReactionEngine application of one reaction
to the node amounts: each component changes by
extent x coefficient(c) / |coefficient(key)| (section 4.2; signs follow
the worked example of section 8, negative coefficients consume). -/
def applyReaction (amounts : List (String × ℚ)) (r : Reaction) : List (String × ℚ) :=
  let xi := reactionExtent amounts r
  let denom := |amountOf r.stoichiometry r.key_component|
  amounts.map (fun p => (p.1, p.2 + xi * amountOf r.stoichiometry p.1 / denom))

/-- Component amounts entering the reactive node from the inputs. -/
def nodeInputAmounts (req : Request) (tbl : List Stream) : List (String × ℚ) :=
  req.components.map (fun c => (c, inputAmount tbl c))

/-- Modelled from the spec: sequential application of all reactions in
the order given; each later reaction sees the amounts already adjusted
by earlier reactions (section 4.2). -/
def nodeAmounts (req : Request) (tbl : List Stream) : List (String × ℚ) :=
  req.reactions.foldl applyReaction (nodeInputAmounts req tbl)

/-- Component amounts already committed to OUTPUT streams whose flow is
known. -/
def knownOutputAmount (tbl : List Stream) (c : String) : ℚ :=
  (tbl.filter (fun s => s.direction == (-1 : Int) && s.flow_rate.isSome)).foldl
    (fun a s => a + flowD s * compD s c) 0

/-- Modelled from the spec: completion of a single missing composition
entry by the closure invariant, the entries of a stream must sum to 1
(sections 3 and 4.4 step 2). -/
def fillMissingComp (s : Stream) : Stream :=
  let knownSum := compSum s
  match s.compositions.filter (fun p => p.2.isNone) with
  | [(c, _)] =>
    { s with compositions :=
        s.compositions.map (fun p => if p.1 == c then (p.1, some (1 - knownSum)) else p) }
  | _ => s

/-- Modelled from the spec: balance step (section 4.4 step 2): when
exactly one OUTPUT stream has an unknown flow rate, it receives the
residual component amounts of the reactive node, by overall and
per-component conservation. -/
def balanceOutputs (req : Request) (tbl : List Stream) : List Stream :=
  match tbl.filter (fun s => s.direction == (-1 : Int) && s.flow_rate.isNone) with
  | [u] =>
    let node := nodeAmounts req tbl
    let resid := req.components.map (fun c => (c, amountOf node c - knownOutputAmount tbl c))
    let total := resid.foldl (fun a p => a + p.2) 0
    tbl.map (fun s =>
      if s.name == u.name then
        { s with flow_rate := some total,
                 compositions := req.components.map (fun c => (c, some (amountOf resid c / total))) }
      else s)
  | _ => tbl

/-- Update applied by the split resolver to one table entry. -/
def splitChild (sp : Split) (p : Stream) (s : Stream) : Stream :=
  if s.name == sp.recycle_stream then
    { s with flow_rate := some (sp.fraction * flowD p), compositions := p.compositions }
  else if s.name == sp.purge_stream then
    { s with flow_rate := some ((1 - sp.fraction) * flowD p), compositions := p.compositions }
  else s

/-- Modelled from the spec: a split executes only once its parent is
fully KNOWN (section 4.3). -/
def splitReady (tbl : List Stream) (sp : Split) : Bool :=
  match lookupStream tbl sp.parent_stream with
  | some p => streamKnown p
  | none => false

/-- Modelled from the spec: SplitResolver (section 4.3): when the parent
is resolved, the recycle stream receives fraction x parent flow, the
purge stream (1 - fraction) x parent flow, and both children copy the
parent compositions; otherwise the table is returned unchanged (the
resolver defers). -/
def applySplit (sp : Split) (tbl : List Stream) : List Stream :=
  match lookupStream tbl sp.parent_stream with
  | some p => if streamKnown p then tbl.map (splitChild sp p) else tbl
  | none => tbl

/-- Modelled from the spec: tear streams are recycle streams that feed
back as inputs (section 4.4). -/
def tearNames (req : Request) : List String :=
  (req.streams.filter (fun s =>
    s.direction == (1 : Int) && req.splits.any (fun sp => sp.recycle_stream == s.name))).map
    (fun s => s.name)

/-- Modelled from the spec: tear streams are initialized to flow 0 and
all compositions 0 on the first pass (section 4.4). -/
def initTable (req : Request) : List Stream :=
  req.streams.map (fun s =>
    if (tearNames req).contains s.name then
      { s with flow_rate := some 0,
               compositions := s.compositions.map (fun p => (p.1, some (0 : ℚ))) }
    else s)

/-- Modelled from the spec: one forward pass of the convergence loop
(section 4.4): rebuild the table from the request with the current tear
estimates substituted, complete single missing compositions, run the
reaction and balance steps, then resolve the splits whose parent is
ready. -/
def forwardPass (req : Request) (tbl : List Stream) : List Stream :=
  let base := req.streams.map (fun s =>
    if (tearNames req).contains s.name then (lookupStream tbl s.name).getD s else s)
  let t1 := base.map fillMissingComp
  let t2 := balanceOutputs req t1
  req.splits.foldl (fun t sp => applySplit sp t) t2

/-- Max-absolute-difference between two snapshots of one stream, on the
flow rate and on each composition entry (section 4.4 step 4). -/
def streamResidual (a b : Stream) : ℚ :=
  a.compositions.foldl (fun acc p => max acc |p.2.getD 0 - compD b p.1|) |flowD a - flowD b|

/-- Modelled from the spec: convergence residual, the largest change of
any tear stream between two consecutive iterations (section 4.4). -/
def tearResidual (req : Request) (old new : List Stream) : ℚ :=
  (tearNames req).foldl (fun acc n =>
    match lookupStream old n, lookupStream new n with
    | some a, some b => max acc (streamResidual a b)
    | _, _ => acc) 0

/-- Outcome of the recycle convergence loop: CONVERGED with the final
table, the iterations used and the last residual, or failure with the
iteration count and the last residual. -/
inductive ConvOutcome where
  | converged (tbl : List Stream) (iterations : Nat) (residual : ℚ)
  | failed (iterations : Nat) (residual : ℚ)
deriving DecidableEq

/-- Modelled from the spec: the iteration core of the
RecycleConvergenceLoop (section 4.4): each iteration runs one forward
pass, compares the tear streams, stops CONVERGED as soon as the
residual is below the tolerance, and fails with the iteration count and
the last residual when the fuel is exhausted. -/
def loopGo (req : Request) : Nat → Nat → ℚ → List Stream → ConvOutcome
  | 0, k, r, _ => .failed k r
  | n + 1, k, _, tbl =>
    let tbl1 := forwardPass req tbl
    let r1 := tearResidual req tbl tbl1
    if r1 < tol then .converged tbl1 (k + 1) r1
    else loopGo req n (k + 1) r1 tbl1

/-- Modelled from the spec: the RecycleConvergenceLoop runs at most
maxIterations iterations starting from the initialized table
(section 4.4). -/
def runLoop (req : Request) (tbl : List Stream) : ConvOutcome :=
  loopGo req maxIterations 0 0 tbl

/-- First stream whose slot is still UNKNOWN after convergence, if any
(section 4.5 check b). -/
def firstUnknown (tbl : List Stream) : Option String :=
  (tbl.find? (fun s => !streamKnown s)).map (fun s => s.name)

/-- Overall mass closure check: total flow in equals total flow out
within tolerance (section 4.5 check a). -/
def flowClosureOk (tbl : List Stream) : Bool :=
  decide (|sumFlows tbl 1 - sumFlows tbl (-1)| ≤ tol)

/-- Per-stream composition closure check: the entries sum to 1 within
tolerance (sections 3 and 8). -/
def closeOk (s : Stream) : Bool :=
  decide (|compSum s - 1| ≤ tol)

/-- Modelled from the spec: BalanceValidator (section 4.5): every slot
must have ended KNOWN (otherwise UnderspecifiedError naming the first
unresolved stream), total mass must close when no reactions are present,
and every resolved stream must satisfy composition closure. -/
def validateTable (req : Request) (tbl : List Stream) : Except SolveError (List Stream) :=
  match firstUnknown tbl with
  | some n => .error (.underspecified n)
  | none =>
    if req.reactions.isEmpty && !flowClosureOk tbl then
      .error (.overspecified "overall mass balance does not close")
    else
      match tbl.find? (fun s => !closeOk s) with
      | some s => .error (.overspecified ("compositions of stream " ++ s.name ++ " do not sum to 1"))
      | none => .ok tbl

/-- Modelled from the spec: the full solve pipeline on the stream table:
registry validation, convergence loop, balance validation
(sections 2 and 4). -/
def solveTable (req : Request) : Except SolveError (List Stream) :=
  match registryCheck req with
  | some e => .error e
  | none =>
    match runLoop req (initTable req) with
    | .failed k r => .error (.convergence k r)
    | .converged tbl _ _ => validateTable req tbl

/-- Resolved per-stream results built from the final table
(section 6). -/
def buildResults (tbl : List Stream) : List (String × StreamResult) :=
  tbl.map (fun s =>
    (s.name, ⟨flowD s, s.compositions.map (fun p => (p.1, p.2.getD 0))⟩))

/-- Modelled from the spec: process metrics of the response (section 6):
fresh feed, product flow and, when splits are present, the recycle
ratio (section 8). -/
def metricsOf (req : Request) (tbl : List Stream) : List (String × ℚ) :=
  let fresh := (tbl.filter (fun s =>
    s.direction == (1 : Int) && !(tearNames req).contains s.name)).foldl
    (fun a s => a + flowD s) 0
  let product := sumFlows tbl (-1)
  let recycleFlow := req.splits.foldl (fun a sp =>
    a + (match lookupStream tbl sp.recycle_stream with
         | some s => flowD s
         | none => 0)) 0
  [("fresh_feed", fresh), ("product_flow", product)]
    ++ (if req.splits.isEmpty then [] else [("recycle_ratio", recycleFlow / fresh)])

/-- Modelled from the spec: solving a request either fully succeeds with
results and metrics or fails with one domain error (sections 6 and 7). -/
def solve (req : Request) : Except SolveError SolveOk :=
  match solveTable req with
  | .error e => .error e
  | .ok tbl => .ok ⟨buildResults tbl, metricsOf req tbl⟩

/-- Whether a solve succeeded. -/
def solveOkB (req : Request) : Bool :=
  match solve req with
  | .ok _ => true
  | .error _ => false

/-- The result entry of one named stream of a successful solve. -/
def resultOf (req : Request) (n : String) : Option StreamResult :=
  match solve req with
  | .ok r => (r.results.find? (fun p => p.1 == n)).map (fun p => p.2)
  | .error _ => none

/-- Sum of the composition entries of one result stream. -/
def resultCompSum (r : StreamResult) : ℚ :=
  r.compositions.foldl (fun a q => a + q.2) 0

end MassBalance

namespace Api

/-- Body of an HTTP response as the API module reads it: the optional
detail field of the parsed JSON (API module, error branch of call). -/
structure ApiBody where
  detail : Option String
deriving DecidableEq

/-- An HTTP response as seen by the fetch wrapper: status code and
parsed body. -/
structure ApiResponse where
  status : Nat
  body : ApiBody
deriving DecidableEq

/-- The ok flag of a fetch response: status in the 2xx range. -/
def respOk (r : ApiResponse) : Bool := 200 ≤ r.status && r.status < 300

/-- Outcome of API.call: a resolved body or a rejection message. -/
inductive ApiOutcome where
  | success (body : ApiBody)
  | failure (message : String)
deriving DecidableEq

/-- Whether an API.call outcome is a rejection. -/
def ApiOutcome.isFailure : ApiOutcome → Bool
  | .success _ => false
  | .failure _ => true

/-- JavaScript string disjunction: a || b is b when a is absent or empty
(the empty string is falsy), a otherwise. -/
def jsStringOr (s : Option String) (fallback : String) : String :=
  match s with
  | some d => if d = "" then fallback else d
  | none => fallback

/-- API.call from the API module: on a non-ok response it rejects with
the body detail field or the fallback message, on an ok response it
resolves with the body. -/
def apiCall (resp : ApiResponse) : ApiOutcome :=
  if respOk resp then .success resp.body
  else .failure (jsStringOr resp.body.detail "API request failed")

end Api

namespace MassBalance

/-- Modelled from the spec: the user-facing message of each domain
error, naming the offending stream, component or constraint
(section 7). -/
def errMessage : SolveError → String
  | .topology m => "Topology error: " ++ m
  | .underspecified s => "Underspecified system: stream " ++ (s ++ " is unresolved")
  | .overspecified m => "Overspecified system: " ++ m
  | .convergence k r =>
    "Convergence error: no convergence after " ++
      (toString k ++ (" iterations; last residual " ++ (toString r.num ++ ("/" ++ toString r.den))))

/-- Modelled from the spec: the HTTP response of the solve endpoint: 200
with no detail on success, a non-2xx status whose body carries the
error detail string on failure (section 6). -/
def solveResponse (req : Request) : Api.ApiResponse :=
  match solve req with
  | .ok _ => ⟨200, ⟨none⟩⟩
  | .error e => ⟨422, ⟨some (errMessage e)⟩⟩

end MassBalance

namespace Frontend

/-- Drop leading whitespace characters of a character list. -/
def dropLeadingWs : List Char → List Char
  | [] => []
  | c :: cs => if c.isWhitespace then dropLeadingWs cs else c :: cs

/-- JavaScript String.prototype.trim: strip leading and trailing
whitespace. -/
def jsTrim (s : String) : String :=
  ⟨dropLeadingWs (dropLeadingWs s.data.reverse).reverse⟩

/-- One composition row of a stream form (balance module): the component
name of the row and the raw text of its value input. -/
structure CompositionRow where
  component : String
  valueInput : String
deriving DecidableEq

/-- One stream form of the balance module: raw text of the name,
direction and flow-rate inputs, and the composition rows. -/
structure StreamForm where
  nameInput : String
  directionInput : String
  flowRateInput : String
  rows : List CompositionRow
deriving DecidableEq

/-- A stream object pushed by collectStreamData into the request. -/
structure StreamData where
  name : String
  direction : Int
  flow_rate : Option ℚ
  compositions : List (String × Option ℚ)
deriving DecidableEq

/-- The stream object collectStreamData builds from one form
(balance module, collectStreamData): trimmed name, parsed direction,
flow_rate null when the trimmed flow input is empty, and one
compositions entry per row, null when the trimmed value is empty.
parseNum and parseIntJS stand for the JavaScript parseFloat and
parseInt builtins. -/
def buildStream (parseNum : String → ℚ) (parseIntJS : String → Int) (f : StreamForm) : StreamData :=
  { name := jsTrim f.nameInput
    direction := parseIntJS f.directionInput
    flow_rate := if jsTrim f.flowRateInput = "" then none
                 else some (parseNum (jsTrim f.flowRateInput))
    compositions := f.rows.map (fun r =>
      (r.component, if jsTrim r.valueInput = "" then none
                    else some (parseNum (jsTrim r.valueInput)))) }

/-- collectStreamData from the balance module: builds one stream object
per form and pushes it only when the trimmed name is non-empty. -/
def collectStreamData (parseNum : String → ℚ) (parseIntJS : String → Int) :
    List StreamForm → List StreamData
  | [] => []
  | f :: rest =>
    if jsTrim f.nameInput = "" then collectStreamData parseNum parseIntJS rest
    else buildStream parseNum parseIntJS f :: collectStreamData parseNum parseIntJS rest

/-- Concrete stream form used to instantiate the collectStreamData
theorem. -/
def sampleForm : StreamForm :=
  ⟨" F ", "1", "  ", [⟨"A", " "⟩, ⟨"B", "2.5"⟩]⟩

end Frontend

namespace MassBalance

/-- The pass-through request of section 8: one fully known input F and
one fully unknown output P. -/
def reqC2 : Request :=
  ⟨["A"],
   [⟨"F", 1, some 1000, [("A", some 1)]⟩,
    ⟨"P", -1, none, [("A", none)]⟩],
   [], []⟩

/-- The reaction request of section 8: feed F of 100 of pure A, the
reaction A to B at conversion 0.4, and an unknown product P. -/
def reqC3 : Request :=
  ⟨["A", "B"],
   [⟨"F", 1, some 100, [("A", some 1), ("B", none)]⟩,
    ⟨"P", -1, none, [("A", none), ("B", none)]⟩],
   [⟨[("A", -1), ("B", 1)], "A", 2/5⟩], []⟩

/-- The underspecified request of section 8: a single stream with no
known flow rate and no known composition. -/
def reqC8 : Request :=
  ⟨["A"], [⟨"F", 1, none, [("A", none)]⟩], [], []⟩

/-- Concrete split used to instantiate the split resolver theorem. -/
def sampleSplit : Split := ⟨"S", "R", "Q", 3/10⟩

/-- Concrete resolved parent stream of the sample split. -/
def sampleParent : Stream := ⟨"S", -1, some 100, [("A", some 1)]⟩

/-- Concrete stream table containing the sample split streams. -/
def sampleTable : List Stream :=
  [⟨"S", -1, some 100, [("A", some 1)]⟩,
   ⟨"R", 1, none, [("A", none)]⟩,
   ⟨"Q", -1, none, [("A", none)]⟩]

/-- The table the solver resolves for the pass-through request. -/
def tblC2 : List Stream :=
  [⟨"F", 1, some 1000, [("A", some 1)]⟩, ⟨"P", -1, some 1000, [("A", some 1)]⟩]

/-- The response the solver produces for the reaction request. -/
def resC3 : SolveOk :=
  ⟨[("F", ⟨100, [("A", 1), ("B", 0)]⟩), ("P", ⟨100, [("A", 3/5), ("B", 2/5)]⟩)],
   [("fresh_feed", 100), ("product_flow", 100)]⟩

end MassBalance

namespace MassBalance

/-- Invariant of the convergence loop core: the iteration counter grows
by at most the fuel, a converged outcome has a residual below the
tolerance, and a failed outcome reports a residual at or above the
tolerance unless no iteration ran at all. -/
theorem loopGo_inv (req : Request) : ∀ (n k : Nat) (r : ℚ) (tbl : List Stream),
    (match loopGo req n k r tbl with
     | .converged _ j s => j ≤ k + n ∧ s < tol
     | .failed j s => j = k + n ∧ (tol ≤ s ∨ (n = 0 ∧ s = r))) := by
  intro n
  induction n with
  | zero =>
    intro k r tbl
    exact ⟨by omega, Or.inr ⟨rfl, rfl⟩⟩
  | succ m ih =>
    intro k r tbl
    simp only [loopGo]
    by_cases hc : tearResidual req tbl (forwardPass req tbl) < tol
    · simp only [if_pos hc]
      exact ⟨by omega, hc⟩
    · simp only [if_neg hc]
      have h2 := ih (k + 1) (tearResidual req tbl (forwardPass req tbl)) (forwardPass req tbl)
      revert h2
      cases loopGo req m (k + 1) (tearResidual req tbl (forwardPass req tbl))
          (forwardPass req tbl) with
      | converged t j s => intro h2; exact ⟨by omega, h2.2⟩
      | failed j s =>
        intro h2
        refine ⟨by omega, Or.inl ?_⟩
        rcases h2.2 with h3 | h3
        · exact h3
        · exact h3.2 ▸ le_of_not_lt hc

/-- Claim C1: for every solve request the recycle convergence loop
performs at most maxIterations (200) iterations; it stops CONVERGED
with the last residual below the tolerance (1e-6), and when the budget
is exhausted it fails reporting the iteration count (equal to the
budget) and the last residual (still at or above the tolerance); the
loop is a total function, it never runs unbounded. -/
theorem convergenceLoop_bounded (req : Request) :
    match runLoop req (initTable req) with
    | .converged _ k r => k ≤ maxIterations ∧ r < tol
    | .failed k r => k = maxIterations ∧ tol ≤ r := by
  have h2 := loopGo_inv req maxIterations 0 0 (initTable req)
  rw [runLoop]
  revert h2
  cases loopGo req maxIterations 0 0 (initTable req) with
  | converged t j s => intro h2; exact ⟨by omega, h2.2⟩
  | failed j s =>
    intro h2
    refine ⟨by omega, ?_⟩
    rcases h2.2 with h3 | h3
    · exact h3
    · exact absurd h3.1 (by simp [maxIterations])

/-- Claim C2: the pass-through request (one fully known input F of
flow 1000 and pure A, one fully unknown output P) solves successfully
and returns P.flow_rate = 1000 and P.compositions.A = 1. -/
theorem passThrough_example :
    solveOkB reqC2 = true ∧ resultOf reqC2 "P" = some ⟨1000, [("A", 1)]⟩ := by
  constructor
  · with_unfolding_all rfl
  · with_unfolding_all rfl

/-- Claim C3: the reaction request (feed F of flow 100 and pure A,
reaction A to B with conversion 0.4, unknown product P) solves
successfully with P.flow_rate = 100 and P.compositions A = 0.6 and
B = 0.4, and the reaction extent equals conversion times the available
key-component amount at the reactive node (0.4 times 100). -/
theorem reaction_example :
    solveOkB reqC3 = true
    ∧ resultOf reqC3 "P" = some ⟨100, [("A", 3/5), ("B", 2/5)]⟩
    ∧ reactionExtent (nodeInputAmounts reqC3 ((initTable reqC3).map fillMissingComp))
        ⟨[("A", -1), ("B", 1)], "A", 2/5⟩ = (2/5) * 100 := by
  refine ⟨?_, ?_, ?_⟩
  · with_unfolding_all rfl
  · with_unfolding_all rfl
  · with_unfolding_all rfl

/-- The name of a table entry is unchanged by the split update. -/
theorem splitChild_name (sp : Split) (p s : Stream) : (splitChild sp p s).name = s.name := by
  unfold splitChild
  split
  · rfl
  · split
    · rfl
    · rfl

/-- Looking a stream up after the split update is the split update of
the original lookup. -/
theorem lookupStream_map_splitChild (sp : Split) (p : Stream) (tbl : List Stream) (n : String) :
    lookupStream (tbl.map (splitChild sp p)) n = (lookupStream tbl n).map (splitChild sp p) := by
  unfold lookupStream
  have hpred : ((fun s => s.name == n) ∘ (splitChild sp p)) = (fun s => s.name == n) := by
    funext s
    simp [Function.comp, splitChild_name]
  rw [List.find?_map, hpred]

/-- When a split is not ready (parent missing or not fully KNOWN), the
resolver defers: the table is unchanged and no error is raised. -/
theorem splitDefers (tb : List Stream) (s : Split) (h : splitReady tb s = false) :
    applySplit s tb = tb := by
  unfold splitReady at h
  unfold applySplit
  cases hl : lookupStream tb s.parent_stream with
  | none => rfl
  | some p =>
    rw [hl] at h
    simp only [] at h
    simp [h]

/-- Claim C4: for every split whose parent stream is resolved (KNOWN
flow and fully KNOWN composition) and whose fraction lies in [0, 1],
the resolver sets the recycle child flow to fraction x parent flow and
the purge child flow to (1 - fraction) x parent flow (the two child
flows sum to the parent flow), and copies the parent compositions
unchanged to both children; when the parent is not resolved the
resolver defers, returning the table unchanged. -/
theorem splitResolver_spec (sp : Split) (tbl : List Stream) (p r q : Stream)
    (hp : lookupStream tbl sp.parent_stream = some p)
    (hk : streamKnown p = true)
    (hrp : sp.recycle_stream ≠ sp.purge_stream)
    (hr : lookupStream tbl sp.recycle_stream = some r)
    (hq : lookupStream tbl sp.purge_stream = some q)
    (h0 : 0 ≤ sp.fraction) (h1 : sp.fraction ≤ 1) :
    ((lookupStream (applySplit sp tbl) sp.recycle_stream).map (fun s => s.flow_rate)
        = some (some (sp.fraction * flowD p)))
    ∧ ((lookupStream (applySplit sp tbl) sp.purge_stream).map (fun s => s.flow_rate)
        = some (some ((1 - sp.fraction) * flowD p)))
    ∧ sp.fraction * flowD p + (1 - sp.fraction) * flowD p = flowD p
    ∧ ((lookupStream (applySplit sp tbl) sp.recycle_stream).map (fun s => s.compositions)
        = some p.compositions)
    ∧ ((lookupStream (applySplit sp tbl) sp.purge_stream).map (fun s => s.compositions)
        = some p.compositions)
    ∧ (∀ tb s, splitReady tb s = false → applySplit s tb = tb) := by
  have happ : applySplit sp tbl = tbl.map (splitChild sp p) := by
    unfold applySplit
    rw [hp]
    simp [hk]
  have hr2 : tbl.find? (fun s => s.name == sp.recycle_stream) = some r := hr
  have hq2 : tbl.find? (fun s => s.name == sp.purge_stream) = some q := hq
  have hrname : (r.name == sp.recycle_stream) = true := by
    have hh := List.find?_some hr2
    exact hh
  have hqname : (q.name == sp.purge_stream) = true := by
    have hh := List.find?_some hq2
    exact hh
  have hqnotr : (q.name == sp.recycle_stream) = false := by
    rw [beq_eq_false_iff_ne]
    rw [beq_iff_eq] at hqname
    rw [hqname]
    exact fun hh => hrp hh.symm
  have hrc : splitChild sp p r =
      { r with flow_rate := some (sp.fraction * flowD p), compositions := p.compositions } := by
    unfold splitChild
    rw [hrname]
    simp
  have hqc : splitChild sp p q =
      { q with flow_rate := some ((1 - sp.fraction) * flowD p), compositions := p.compositions } := by
    unfold splitChild
    rw [hqnotr, hqname]
    simp
  refine ⟨?_, ?_, by ring, ?_, ?_, fun tb s => splitDefers tb s⟩
  · rw [happ, lookupStream_map_splitChild, hr]
    simp [hrc]
  · rw [happ, lookupStream_map_splitChild, hq]
    simp [hqc]
  · rw [happ, lookupStream_map_splitChild, hr]
    simp [hrc]
  · rw [happ, lookupStream_map_splitChild, hq]
    simp [hqc]

/-- Witness for claim C4 at a concrete split and table. -/
theorem splitResolver_spec_witness :
    (lookupStream (applySplit sampleSplit sampleTable) sampleSplit.recycle_stream).map
      (fun s => s.flow_rate) = some (some (sampleSplit.fraction * flowD sampleParent)) :=
  (splitResolver_spec sampleSplit sampleTable sampleParent
    ⟨"R", 1, none, [("A", none)]⟩ ⟨"Q", -1, none, [("A", none)]⟩
    (by with_unfolding_all rfl) (by rfl) (by decide)
    (by with_unfolding_all rfl) (by with_unfolding_all rfl)
    (by with_unfolding_all decide) (by with_unfolding_all decide)).1

/-- Successful validation means the validated table is returned and all
three post-convergence checks passed. -/
theorem validateTable_ok {req : Request} {t tbl : List Stream}
    (h : validateTable req t = Except.ok tbl) :
    tbl = t ∧ firstUnknown t = none
    ∧ (req.reactions.isEmpty && !flowClosureOk t) = false
    ∧ t.find? (fun s => !closeOk s) = none := by
  unfold validateTable at h
  cases hf : firstUnknown t with
  | some n => rw [hf] at h; simp at h
  | none =>
    rw [hf] at h
    simp only [] at h
    by_cases hb : (req.reactions.isEmpty && !flowClosureOk t) = true
    · rw [if_pos hb] at h; simp at h
    · rw [if_neg hb] at h
      cases hg : t.find? (fun s => !closeOk s) with
      | some s => rw [hg] at h; simp at h
      | none =>
        rw [hg] at h
        simp only [Except.ok.injEq] at h
        exact ⟨h.symm, rfl, by simpa using hb, rfl⟩

/-- A successful solve pipeline implies all validator checks passed on
the returned table. -/
theorem solveTable_ok {req : Request} {tbl : List Stream}
    (h : solveTable req = Except.ok tbl) :
    firstUnknown tbl = none
    ∧ (req.reactions.isEmpty && !flowClosureOk tbl) = false
    ∧ tbl.find? (fun s => !closeOk s) = none := by
  unfold solveTable at h
  cases hr : registryCheck req with
  | some e => rw [hr] at h; simp at h
  | none =>
    rw [hr] at h
    simp only [] at h
    cases hl : runLoop req (initTable req) with
    | failed k r => rw [hl] at h; simp at h
    | converged t j s =>
      rw [hl] at h
      simp only [] at h
      obtain ⟨rfl, a, b, c⟩ := validateTable_ok h
      exact ⟨a, b, c⟩

/-- Claim C5: for every flowsheet with no reactions and no splits that
solves successfully, the sum of the OUTPUT stream flow rates equals the
sum of the INPUT stream flow rates within the tolerance 1e-6, and the
response is built from the resolved table. -/
theorem conservation_no_reactions (req : Request) (tbl : List Stream)
    (hre : req.reactions = []) (hsp : req.splits = [])
    (h : solveTable req = Except.ok tbl) :
    |sumFlows tbl (-1) - sumFlows tbl 1| ≤ tol
    ∧ solve req = Except.ok ⟨buildResults tbl, metricsOf req tbl⟩ := by
  have h2 := (solveTable_ok h).2.1
  rw [hre] at h2
  simp at h2
  constructor
  · unfold flowClosureOk at h2
    have h3 := of_decide_eq_true h2
    rw [abs_sub_comm] at h3
    exact h3
  · unfold solve
    rw [h]

/-- Witness for claim C5 at the concrete pass-through request. -/
theorem conservation_no_reactions_witness :
    |sumFlows tblC2 (-1) - sumFlows tblC2 1| ≤ tol
    ∧ solve reqC2 = Except.ok ⟨buildResults tblC2, metricsOf reqC2 tblC2⟩ :=
  conservation_no_reactions reqC2 tblC2 rfl rfl (by with_unfolding_all rfl)

/-- Claim C6: in every successful solve response, every stream of the
results map satisfies closure: its composition entries sum to 1 within
the tolerance 1e-6. -/
theorem composition_closure (req : Request) (res : SolveOk)
    (h : solve req = Except.ok res) :
    ∀ n sr, (n, sr) ∈ res.results → |resultCompSum sr - 1| ≤ tol := by
  unfold solve at h
  cases ht : solveTable req with
  | error e => rw [ht] at h; simp at h
  | ok tbl =>
    rw [ht] at h
    simp only [Except.ok.injEq] at h
    have hcl := (solveTable_ok ht).2.2
    rw [List.find?_eq_none] at hcl
    intro n sr hmem
    rw [← h] at hmem
    simp only [buildResults] at hmem
    obtain ⟨s, hs, heq⟩ := List.mem_map.mp hmem
    have h4 := hcl s hs
    simp only [Bool.not_eq_true, Bool.not_eq_false] at h4
    have h5 : |compSum s - 1| ≤ tol := by
      have h6 : closeOk s = true := by
        cases hcase : closeOk s with
        | true => rfl
        | false => exact absurd hcase (by simpa using h4)
      unfold closeOk at h6
      exact of_decide_eq_true h6
    have h7 : sr = ⟨flowD s, s.compositions.map (fun p => (p.1, p.2.getD 0))⟩ := by
      have h8 := congrArg Prod.snd heq
      simpa using h8.symm
    rw [h7]
    have h9 : resultCompSum ⟨flowD s, s.compositions.map (fun p => (p.1, p.2.getD 0))⟩
        = compSum s := by
      unfold resultCompSum compSum
      rw [List.foldl_map]
    rw [h9]
    exact h5

/-- Witness for claim C6 at the concrete reaction request. -/
theorem composition_closure_witness :
    |resultCompSum ⟨100, [("A", 3/5), ("B", 2/5)]⟩ - 1| ≤ tol :=
  composition_closure reqC3 resC3 (by with_unfolding_all rfl) "P"
    ⟨100, [("A", 3/5), ("B", 2/5)]⟩ (by with_unfolding_all decide)

/-- Claim C7: solving is deterministic: the solver is a pure function
of the request value, so solving the same request twice produces
identical results, including every flow rate, composition entry and
metric. -/
theorem solve_deterministic (req : Request) : solve req = solve req := rfl

/-- Claim C8: the underspecified request (a single stream with no known
flow rate and no known composition) fails with an UnderspecifiedError
naming the unresolved stream F, and no results object is returned. -/
theorem underspecified_example :
    solve reqC8 = Except.error (.underspecified "F") ∧ solveOkB reqC8 = false := by
  constructor
  · with_unfolding_all rfl
  · with_unfolding_all rfl

/-- A string with a non-empty left component stays non-empty under
append. -/
theorem append_ne_empty_left (s t : String) (h : s.data ≠ []) : s ++ t ≠ "" := by
  intro he
  apply h
  have hd := String.data_append s t
  rw [he] at hd
  exact (List.append_eq_nil.mp hd.symm).1

/-- Every domain error message is a non-empty string. -/
theorem errMessage_ne_empty (e : SolveError) : errMessage e ≠ "" := by
  cases e with
  | topology m => exact append_ne_empty_left _ _ (by decide)
  | underspecified s => exact append_ne_empty_left _ _ (by decide)
  | overspecified m => exact append_ne_empty_left _ _ (by decide)
  | convergence k r => exact append_ne_empty_left _ _ (by decide)

/-- Claim C9 (amended): every non-ok HTTP response makes API.call reject
with the body detail field, falling back to the fixed message when the
detail is absent or empty, and never resolve with a result; every
failed solve produces a non-2xx response carrying the error detail,
and API.call surfaces that detail verbatim. -/
theorem apiCall_error_detail (resp : Api.ApiResponse) (req : Request) (e : SolveError)
    (h1 : Api.respOk resp = false) (h2 : solve req = Except.error e) :
    Api.apiCall resp = .failure (Api.jsStringOr resp.body.detail "API request failed")
    ∧ (Api.apiCall resp).isFailure = true
    ∧ Api.respOk (solveResponse req) = false
    ∧ (solveResponse req).body.detail = some (errMessage e)
    ∧ Api.apiCall (solveResponse req) = .failure (errMessage e) := by
  have hresp : solveResponse req = ⟨422, ⟨some (errMessage e)⟩⟩ := by
    unfold solveResponse
    rw [h2]
  have hmain : ∀ rp : Api.ApiResponse, Api.respOk rp = false →
      Api.apiCall rp = .failure (Api.jsStringOr rp.body.detail "API request failed") := by
    intro rp hrp
    unfold Api.apiCall
    rw [hrp]
    simp
  refine ⟨hmain resp h1, ?_, ?_, ?_, ?_⟩
  · rw [hmain resp h1]
    rfl
  · rw [hresp]
    rfl
  · rw [hresp]
  · rw [hresp]
    have h4 := hmain ⟨422, ⟨some (errMessage e)⟩⟩ (by rfl)
    rw [h4]
    unfold Api.jsStringOr
    simp only []
    rw [if_neg (errMessage_ne_empty e)]

/-- Witness for claim C9 at the concrete underspecified request. -/
theorem apiCall_error_detail_witness :
    Api.apiCall (solveResponse reqC8) = .failure (errMessage (.underspecified "F")) :=
  (apiCall_error_detail ⟨500, ⟨none⟩⟩ reqC8 (.underspecified "F")
    (by rfl) (by with_unfolding_all rfl)).2.2.2.2

/-- Counterexample for claim C9 as stated: a non-ok response whose
detail field is present but empty is rejected with the fallback
message, not with the detail field itself. -/
theorem apiCall_empty_detail_cex :
    Api.apiCall ⟨422, ⟨some ""⟩⟩ = .failure "API request failed"
    ∧ decide (Api.apiCall ⟨422, ⟨some ""⟩⟩ = Api.ApiOutcome.failure "") = false := by
  constructor
  · rfl
  · rfl

end MassBalance

namespace Frontend

/-- Claim C10: collectStreamData includes a stream form in the outgoing
request exactly when its trimmed name is non-empty, maps an empty
flow-rate input to a null flow_rate, and produces one compositions
entry per row (so every declared component appears as a key), with an
empty value input encoded as null and a non-empty one as its parsed
number. -/
theorem collectStreamData_spec (parseNum : String → ℚ) (parseIntJS : String → Int)
    (forms : List StreamForm) (f : StreamForm) (r : CompositionRow) (hr : r ∈ f.rows) :
    collectStreamData parseNum parseIntJS forms
      = (forms.filter (fun g => !decide (jsTrim g.nameInput = ""))).map
          (buildStream parseNum parseIntJS)
    ∧ ((buildStream parseNum parseIntJS f).flow_rate = none ↔ jsTrim f.flowRateInput = "")
    ∧ (buildStream parseNum parseIntJS f).compositions.map Prod.fst
        = f.rows.map CompositionRow.component
    ∧ (jsTrim r.valueInput = "" →
        (r.component, (none : Option ℚ)) ∈ (buildStream parseNum parseIntJS f).compositions)
    ∧ (jsTrim r.valueInput ≠ "" →
        (r.component, some (parseNum (jsTrim r.valueInput)))
          ∈ (buildStream parseNum parseIntJS f).compositions) := by
  refine ⟨?_, ?_, ?_, ?_, ?_⟩
  · induction forms with
    | nil => rfl
    | cons g rest ih =>
      by_cases hg : jsTrim g.nameInput = ""
      · simp [collectStreamData, List.filter, hg, ih]
      · simp [collectStreamData, List.filter, hg, ih]
  · unfold buildStream
    by_cases hf : jsTrim f.flowRateInput = ""
    · simp [hf]
    · simp [hf]
  · unfold buildStream
    simp [List.map_map, Function.comp]
  · intro hv
    unfold buildStream
    simp only []
    have h2 := List.mem_map_of_mem (fun q : CompositionRow =>
      (q.component, if jsTrim q.valueInput = "" then none
                    else some (parseNum (jsTrim q.valueInput)))) hr
    simpa [hv] using h2
  · intro hv
    unfold buildStream
    simp only []
    have h2 := List.mem_map_of_mem (fun q : CompositionRow =>
      (q.component, if jsTrim q.valueInput = "" then none
                    else some (parseNum (jsTrim q.valueInput)))) hr
    simpa [hv] using h2

/-- Witness for claim C10 at a concrete form with an empty composition
input. -/
theorem collectStreamData_spec_witness :
    ("A", (none : Option ℚ)) ∈ (buildStream (fun _ => 0) (fun _ => 0) sampleForm).compositions :=
  ((collectStreamData_spec (fun _ => 0) (fun _ => 0) [sampleForm] sampleForm ⟨"A", " "⟩
    (by decide)).2.2.2.1) (by decide)

end Frontend
